import Mathlib

/-!
Verification of the global search aggregation service
(`methodology/services/global_search_service.py` and the two HTTP handlers
in `methodology/views.py`).

The persistence layer is modelled as three tables (lists of records).  Users
are identified by their id.  Django queryset operations used by the service
are embedded directly:
  * `filter(author=user)` and friends become `List.filter` over the table;
  * `Q(name__icontains=q) | Q(description__icontains=q)` becomes a
    case-insensitive substring test on the two fields;
  * joins through a foreign key (`playbook__author`, `workflow__playbook__author`)
    become existential lookups in the parent table;
  * `order_by(...)` becomes a sort by the corresponding key.
The service itself is embedded as a state-passing function `DB → α × DB`
whose reads return the state unchanged, so that read-only-ness and
determinism are provable rather than baked in.
-/

/-- A `Playbook` row: owned by exactly one user (`author`). -/
structure Playbook where
  id : Nat
  author : Nat
  name : String
  description : String
  status : String
  source : String
  updatedAt : Nat
deriving DecidableEq

/-- A `Workflow` row: belongs to exactly one playbook, no ownership field. -/
structure Workflow where
  id : Nat
  playbookId : Nat
  name : String
  description : String
  order : Nat
deriving DecidableEq

/-- An `Activity` row: belongs to exactly one workflow. -/
structure Activity where
  id : Nat
  workflowId : Nat
  name : String
  guidance : String
  order : Nat
deriving DecidableEq

/-- The database state read by the service. -/
structure DB where
  playbooks : List Playbook
  workflows : List Workflow
  activities : List Activity
deriving DecidableEq

/-- The result bundle `{"playbooks": [...], "workflows": [...], "activities": [...]}`. -/
structure SearchResult where
  playbooks : List Playbook
  workflows : List Workflow
  activities : List Activity
deriving DecidableEq

/-- Does the character list `needle` occur at the head of `hay`? -/
def listStarts : List Char → List Char → Bool
  | [], _ => true
  | _ :: _, [] => false
  | a :: as, b :: bs => a == b && listStarts as bs

/-- Does `needle` occur as a contiguous sublist of `hay`?  (Python `in`.) -/
def listHasSub (needle : List Char) : List Char → Bool
  | [] => needle.isEmpty
  | c :: tl => listStarts needle (c :: tl) || listHasSub needle tl

/-- Django `field__icontains=q`: case-insensitive substring match of `q` in `field`. -/
def icontains (field q : String) : Bool :=
  listHasSub (q.data.map Char.toLower) (field.data.map Char.toLower)

/-- Python whitespace characters stripped by `str.strip()`. -/
def isWS (c : Char) : Bool :=
  c == ' ' || c == '\t' || c == '\n' || c == '\r' || c == '\x0b' || c == '\x0c'

/-- Drop leading whitespace characters. -/
def trimL (cs : List Char) : List Char := cs.dropWhile isWS

/-- Drop leading and trailing whitespace characters. -/
def trimChars (cs : List Char) : List Char := trimL ((trimL cs.reverse).reverse)

/-- Python `str.strip()`. -/
def pyStrip (s : String) : String := ⟨trimChars s.data⟩

/-- Filters are a Python dict `str -> str`; keys are looked up with `dict.get`. -/
abbrev Filters := List (String × String)

/-- `filters.get(k)`: first binding of `k`, if any. -/
def fget (fs : Filters) (k : String) : Option String :=
  match fs with
  | [] => none
  | (k2, v) :: tl => if k2 == k then some v else fget tl k

/-- The value of filter `k` after Python truthiness (`if status:`):
`None` and `""` both mean "no restriction". -/
def activeFilter (fs : Filters) (k : String) : Option String :=
  match fget fs k with
  | some v => if v == "" then none else some v
  | none => none

/-- The row predicate of `_search_playbooks`: author scope, optional exact
`status` and `source` filters, then `name`/`description` icontains match. -/
def pbPred (q : String) (user : Nat) (fs : Filters) (p : Playbook) : Bool :=
  p.author == user
    && (match activeFilter fs "status" with
        | some s => p.status == s
        | none => true)
    && (match activeFilter fs "source" with
        | some s => p.source == s
        | none => true)
    && (icontains p.name q || icontains p.description q)

/-- `order_by("-updated_at")`: most recently updated first. -/
def pbLe (a b : Playbook) : Prop := b.updatedAt ≤ a.updatedAt

instance : DecidableRel pbLe := fun a b => Nat.decLe b.updatedAt a.updatedAt

instance : IsTotal Playbook pbLe := ⟨fun a b => Nat.le_total b.updatedAt a.updatedAt⟩

instance : IsTrans Playbook pbLe := ⟨fun _ _ _ h1 h2 => Nat.le_trans h2 h1⟩

/-- `order_by("playbook", "order")`: parent playbook id, then `order`, ascending. -/
def wfLe (a b : Workflow) : Prop :=
  a.playbookId < b.playbookId ∨ (a.playbookId = b.playbookId ∧ a.order ≤ b.order)

instance : DecidableRel wfLe := fun a b =>
  inferInstanceAs (Decidable
    (a.playbookId < b.playbookId ∨ (a.playbookId = b.playbookId ∧ a.order ≤ b.order)))

instance : IsTotal Workflow wfLe := by
  constructor
  intro a b
  rcases Nat.lt_trichotomy a.playbookId b.playbookId with h | h | h
  · exact Or.inl (Or.inl h)
  · rcases Nat.le_total a.order b.order with h2 | h2
    · exact Or.inl (Or.inr ⟨h, h2⟩)
    · exact Or.inr (Or.inr ⟨h.symm, h2⟩)
  · exact Or.inr (Or.inl h)

instance : IsTrans Workflow wfLe := by
  constructor
  intro a b c h1 h2
  rcases h1 with h1 | ⟨h1, h1o⟩ <;> rcases h2 with h2 | ⟨h2, h2o⟩
  · exact Or.inl (Nat.lt_trans h1 h2)
  · exact Or.inl (h2 ▸ h1)
  · exact Or.inl (h1 ▸ h2)
  · exact Or.inr ⟨h1.trans h2, Nat.le_trans h1o h2o⟩

/-- `order_by("workflow", "order")`: parent workflow id, then `order`, ascending. -/
def actLe (a b : Activity) : Prop :=
  a.workflowId < b.workflowId ∨ (a.workflowId = b.workflowId ∧ a.order ≤ b.order)

instance : DecidableRel actLe := fun a b =>
  inferInstanceAs (Decidable
    (a.workflowId < b.workflowId ∨ (a.workflowId = b.workflowId ∧ a.order ≤ b.order)))

instance : IsTotal Activity actLe := by
  constructor
  intro a b
  rcases Nat.lt_trichotomy a.workflowId b.workflowId with h | h | h
  · exact Or.inl (Or.inl h)
  · rcases Nat.le_total a.order b.order with h2 | h2
    · exact Or.inl (Or.inr ⟨h, h2⟩)
    · exact Or.inr (Or.inr ⟨h.symm, h2⟩)
  · exact Or.inr (Or.inl h)

instance : IsTrans Activity actLe := by
  constructor
  intro a b c h1 h2
  rcases h1 with h1 | ⟨h1, h1o⟩ <;> rcases h2 with h2 | ⟨h2, h2o⟩
  · exact Or.inl (Nat.lt_trans h1 h2)
  · exact Or.inl (h2 ▸ h1)
  · exact Or.inl (h1 ▸ h2)
  · exact Or.inr ⟨h1.trans h2, Nat.le_trans h1o h2o⟩

/-- `playbook__author=user`: the workflow's parent playbook exists and is owned. -/
def wfOwnedBy (pbs : List Playbook) (user : Nat) (w : Workflow) : Bool :=
  pbs.any (fun p => p.id == w.playbookId && p.author == user)

/-- `workflow__playbook__author=user`: two-hop join to the owning playbook. -/
def actOwnedBy (pbs : List Playbook) (wfs : List Workflow) (user : Nat) (a : Activity) : Bool :=
  wfs.any (fun w => w.id == a.workflowId && wfOwnedBy pbs user w)

/-- Reading the playbook table leaves the state unchanged. -/
def dbReadPlaybooks (db : DB) : List Playbook × DB := (db.playbooks, db)

/-- Reading the workflow table leaves the state unchanged. -/
def dbReadWorkflows (db : DB) : List Workflow × DB := (db.workflows, db)

/-- Reading the activity table leaves the state unchanged. -/
def dbReadActivities (db : DB) : List Activity × DB := (db.activities, db)

/-- `GlobalSearchService._search_playbooks`, materialized. -/
def searchPlaybooksQ (q : String) (user : Nat) (fs : Filters) (db : DB) :
    List Playbook × DB :=
  let r := dbReadPlaybooks db
  ((r.1.filter (pbPred q user fs)).insertionSort pbLe, r.2)

/-- `GlobalSearchService._search_workflows`, materialized. -/
def searchWorkflowsQ (q : String) (user : Nat) (db : DB) :
    List Workflow × DB :=
  let rp := dbReadPlaybooks db
  let rw := dbReadWorkflows rp.2
  ((rw.1.filter (fun w =>
      wfOwnedBy rp.1 user w && (icontains w.name q || icontains w.description q))).insertionSort
    wfLe, rw.2)

/-- `GlobalSearchService._search_activities`, materialized. -/
def searchActivitiesQ (q : String) (user : Nat) (db : DB) :
    List Activity × DB :=
  let rp := dbReadPlaybooks db
  let rw := dbReadWorkflows rp.2
  let ra := dbReadActivities rw.2
  ((ra.1.filter (fun a =>
      actOwnedBy rp.1 rw.1 user a && (icontains a.name q || icontains a.guidance q))).insertionSort
    actLe, ra.2)

/-- The type-level post-filter applied at the aggregation layer. -/
def typeFilterApply (fs : Filters) (pbs : List Playbook) (wfs : List Workflow)
    (acts : List Activity) : SearchResult :=
  match fget fs "type" with
  | some t =>
    if t == "playbooks" then ⟨pbs, [], []⟩
    else if t == "workflows" then ⟨[], wfs, []⟩
    else if t == "activities" then ⟨[], [], acts⟩
    else ⟨pbs, wfs, acts⟩
  | none => ⟨pbs, wfs, acts⟩

/-- `GlobalSearchService.search`: normalizes the query, short-circuits on an
empty query, runs the three scoped lookups, then post-filters by type.
The second component is the database state after the call. -/
def GlobalSearchService.search (query : Option String) (user : Nat)
    (filters : Option Filters) (db : DB) : SearchResult × DB :=
  let fs := filters.getD []
  let normalized := pyStrip (query.getD "")
  if normalized == "" then (⟨[], [], []⟩, db)
  else
    let pr := searchPlaybooksQ normalized user fs db
    let wr := searchWorkflowsQ normalized user pr.2
    let ar := searchActivitiesQ normalized user wr.2
    (typeFilterApply fs pr.1 wr.1 ar.1, ar.2)

/-- The result bundle of a `search` call. -/
def searchRes (query : Option String) (user : Nat) (filters : Option Filters)
    (db : DB) : SearchResult :=
  (GlobalSearchService.search query user filters db).1

/-- `global_search_suggestions` from `methodology/views.py`: trims the query,
returns an empty fragment on an empty query, otherwise calls the same
`search` with `filters=None` and truncates each list to its first 5 entries. -/
def globalSearchSuggestions (q : Option String) (user : Nat) (db : DB) :
    SearchResult × DB :=
  let query := pyStrip (q.getD "")
  if query == "" then (⟨[], [], []⟩, db)
  else
    let res := GlobalSearchService.search (some query) user none db
    (⟨res.1.playbooks.take 5, res.1.workflows.take 5, res.1.activities.take 5⟩, res.2)

/-- The playbook list produced by the playbook lookup alone. -/
def playbooksLookup (q : String) (u : Nat) (fs : Filters) (db : DB) : List Playbook :=
  (searchPlaybooksQ q u fs db).1

/-- The workflow list produced by the workflow lookup alone. -/
def workflowsLookup (q : String) (u : Nat) (db : DB) : List Workflow :=
  (searchWorkflowsQ q u db).1

/-- The activity list produced by the activity lookup alone. -/
def activitiesLookup (q : String) (u : Nat) (db : DB) : List Activity :=
  (searchActivitiesQ q u db).1

/-- All entities of a result bundle are owned, directly or transitively,
by user `u` with respect to database `db`. -/
def OwnedOnly (db : DB) (u : Nat) (r : SearchResult) : Prop :=
  (∀ p ∈ r.playbooks, p.author = u) ∧
  (∀ w ∈ r.workflows, ∃ p ∈ db.playbooks, p.id = w.playbookId ∧ p.author = u) ∧
  (∀ a ∈ r.activities, ∃ w ∈ db.workflows, w.id = a.workflowId ∧
      ∃ p ∈ db.playbooks, p.id = w.playbookId ∧ p.author = u)

/-- The behavior the type filter imposes on the three materialized lists:
a recognised value keeps exactly its own list unchanged and empties the other
two; any other situation keeps all three lookups. -/
def TypePostFilterSpec (db : DB) (q : String) (u : Nat) (fs : Filters) : Prop :=
  (fget fs "type" = some "playbooks" →
      searchRes (some q) u (some fs) db =
        ⟨playbooksLookup (pyStrip q) u fs db, [], []⟩) ∧
  (fget fs "type" = some "workflows" →
      searchRes (some q) u (some fs) db =
        ⟨[], workflowsLookup (pyStrip q) u db, []⟩) ∧
  (fget fs "type" = some "activities" →
      searchRes (some q) u (some fs) db =
        ⟨[], [], activitiesLookup (pyStrip q) u db⟩) ∧
  (fget fs "type" ≠ some "playbooks" → fget fs "type" ≠ some "workflows" →
      fget fs "type" ≠ some "activities" →
      searchRes (some q) u (some fs) db =
        ⟨playbooksLookup (pyStrip q) u fs db, workflowsLookup (pyStrip q) u db,
          activitiesLookup (pyStrip q) u db⟩)

/-- The playbooks list contains exactly the user's playbooks that match the
query on name or description and pass the present status/source filters,
ordered by `updatedAt` descending. -/
def PlaybooksExactSpec (db : DB) (q : String) (u : Nat) (fs : Filters)
    (l : List Playbook) : Prop :=
  (∀ p, p ∈ l ↔
      p ∈ db.playbooks ∧ p.author = u ∧
        (∀ s, activeFilter fs "status" = some s → p.status = s) ∧
        (∀ s, activeFilter fs "source" = some s → p.source = s) ∧
        (icontains p.name q = true ∨ icontains p.description q = true)) ∧
  List.Pairwise (fun a b => b.updatedAt ≤ a.updatedAt) l

/-- The workflows list contains exactly the user's workflows matching the
query on name or description, ordered by parent playbook id then `order`. -/
def WorkflowsExactSpec (db : DB) (q : String) (u : Nat) (l : List Workflow) : Prop :=
  (∀ w, w ∈ l ↔
      w ∈ db.workflows ∧
        (∃ p ∈ db.playbooks, p.id = w.playbookId ∧ p.author = u) ∧
        (icontains w.name q = true ∨ icontains w.description q = true)) ∧
  List.Pairwise
    (fun a b => a.playbookId < b.playbookId ∨ (a.playbookId = b.playbookId ∧ a.order ≤ b.order)) l

/-- The activities list contains exactly the user's activities matching the
query on name or guidance, ordered by parent workflow id then `order`. -/
def ActivitiesExactSpec (db : DB) (q : String) (u : Nat) (l : List Activity) : Prop :=
  (∀ a, a ∈ l ↔
      a ∈ db.activities ∧
        (∃ w ∈ db.workflows, w.id = a.workflowId ∧
            ∃ p ∈ db.playbooks, p.id = w.playbookId ∧ p.author = u) ∧
        (icontains a.name q = true ∨ icontains a.guidance q = true)) ∧
  List.Pairwise
    (fun x y => x.workflowId < y.workflowId ∨ (x.workflowId = y.workflowId ∧ x.order ≤ y.order)) l

/-- The filter dict with every binding of key `k` removed. -/
def withoutKey (fs : Filters) (k : String) : Filters :=
  fs.filter (fun kv => !(kv.1 == k))

/-- The effective type restriction: a recognised type value, otherwise none. -/
def typeEffect (fs : Filters) : Option String :=
  match fget fs "type" with
  | some t =>
    if t == "playbooks" || t == "workflows" || t == "activities" then some t else none
  | none => none

/-! ### Sample data used by witnesses and counterexamples -/

/-- A playbook owned by user 1 whose name matches the query "al". -/
def pbDemo : Playbook := ⟨1, 1, "alpha", "", "draft", "owned", 0⟩

/-- A one-playbook database. -/
def dbDemo : DB := ⟨[pbDemo], [], []⟩

/-! ### Sample database with two owners, used by witnesses -/

/-- Two users' data: user 1 owns playbook 1 (workflows 10, 11; activity 20),
user 2 owns playbook 2 (workflow 12; activity 21). -/
def dbFull : DB :=
  ⟨[⟨1, 1, "Component Development Playbook", "builds components", "active", "owned", 3⟩,
    ⟨2, 2, "Component Other", "other user", "active", "owned", 5⟩],
   [⟨10, 1, "Component Workflow", "wf", 2⟩, ⟨11, 1, "Component flow b", "wf", 1⟩,
    ⟨12, 2, "Component foreign", "wf", 1⟩],
   [⟨20, 10, "Create Component", "guide", 1⟩, ⟨21, 12, "Component foreign act", "g", 1⟩]⟩

/-- Eight playbooks of user 1, all matching the query "a". -/
def db8 : DB :=
  ⟨[⟨1, 1, "a1", "", "active", "owned", 1⟩, ⟨2, 1, "a2", "", "active", "owned", 2⟩,
    ⟨3, 1, "a3", "", "active", "owned", 3⟩, ⟨4, 1, "a4", "", "active", "owned", 4⟩,
    ⟨5, 1, "a5", "", "active", "owned", 5⟩, ⟨6, 1, "a6", "", "active", "owned", 6⟩,
    ⟨7, 1, "a7", "", "active", "owned", 7⟩, ⟨8, 1, "a8", "", "active", "owned", 8⟩],
   [], []⟩

/-! ### Basic lemmas about the embedding -/

/-- Every call to `search` leaves the database state unchanged. -/
theorem search_state_fixed (q : Option String) (u : Nat) (f : Option Filters) (db : DB) :
    (GlobalSearchService.search q u f db).2 = db := by
  unfold GlobalSearchService.search
  cases hb : pyStrip (q.getD "") == ""
  · simp only [hb, Bool.false_eq_true, if_false]
    rfl
  · simp only [hb, if_true]

/-- On a query that trims to non-empty, `search` is the three lookups followed by
the type post-filter. -/
theorem search_pos (q : String) (u : Nat) (f : Option Filters) (db : DB)
    (hq : pyStrip q ≠ "") :
    searchRes (some q) u f db =
      typeFilterApply (f.getD []) (playbooksLookup (pyStrip q) u (f.getD []) db)
        (workflowsLookup (pyStrip q) u db) (activitiesLookup (pyStrip q) u db) := by
  have hb : (pyStrip q == "") = false := by
    simpa using hq
  unfold searchRes GlobalSearchService.search
  simp only [Option.getD_some, hb, Bool.false_eq_true, if_false]
  rfl

theorem mem_playbooksLookup {p : Playbook} {q : String} {u : Nat} {fs : Filters} {db : DB} :
    p ∈ playbooksLookup q u fs db ↔ p ∈ db.playbooks ∧ pbPred q u fs p = true := by
  simp [playbooksLookup, searchPlaybooksQ, dbReadPlaybooks, List.mem_filter]

theorem mem_workflowsLookup {w : Workflow} {q : String} {u : Nat} {db : DB} :
    w ∈ workflowsLookup q u db ↔
      w ∈ db.workflows ∧
        (wfOwnedBy db.playbooks u w && (icontains w.name q || icontains w.description q)) =
          true := by
  simp [workflowsLookup, searchWorkflowsQ, dbReadPlaybooks, dbReadWorkflows, List.mem_filter]

theorem mem_activitiesLookup {a : Activity} {q : String} {u : Nat} {db : DB} :
    a ∈ activitiesLookup q u db ↔
      a ∈ db.activities ∧
        (actOwnedBy db.playbooks db.workflows u a &&
            (icontains a.name q || icontains a.guidance q)) = true := by
  simp [activitiesLookup, searchActivitiesQ, dbReadPlaybooks, dbReadWorkflows,
    dbReadActivities, List.mem_filter]

theorem pairwise_playbooksLookup (q : String) (u : Nat) (fs : Filters) (db : DB) :
    List.Pairwise pbLe (playbooksLookup q u fs db) :=
  List.sorted_insertionSort pbLe _

theorem pairwise_workflowsLookup (q : String) (u : Nat) (db : DB) :
    List.Pairwise wfLe (workflowsLookup q u db) :=
  List.sorted_insertionSort wfLe _

theorem pairwise_activitiesLookup (q : String) (u : Nat) (db : DB) :
    List.Pairwise actLe (activitiesLookup q u db) :=
  List.sorted_insertionSort actLe _

/-- A query that trims to empty short-circuits `search`. -/
theorem search_empty_aux (q : Option String) (u : Nat) (f : Option Filters)
    (db : DB) (hq : pyStrip (q.getD "") = "") :
    GlobalSearchService.search q u f db = (⟨[], [], []⟩, db) := by
  unfold GlobalSearchService.search
  simp [hq]

/-! ### Claim C2: empty-after-trim query short-circuits -/

/-- C2: for every user, filter value and database, a query that is empty after
trimming whitespace makes `search` return three empty sequences immediately,
independent of the database contents and with the state untouched. -/
theorem search_empty_query_returns_empty (q : Option String) (u : Nat) (f : Option Filters)
    (db : DB) (hq : pyStrip (q.getD "") = "") :
    GlobalSearchService.search q u f db = (⟨[], [], []⟩, db) :=
  search_empty_aux q u f db hq

theorem search_empty_query_returns_empty_witness :
    pyStrip ((some "   ").getD "") = "" ∧
      GlobalSearchService.search (some "   ") 7 none dbDemo = (⟨[], [], []⟩, dbDemo) :=
  ⟨by decide, search_empty_query_returns_empty (some "   ") 7 none dbDemo (by decide)⟩

/-! ### Claim C8: search is read-only -/

/-- C8: `search` performs no mutation of the persistence state: the stored
playbooks, workflows and activities are identical before and after any call. -/
theorem search_read_only (q : Option String) (u : Nat) (f : Option Filters) (db : DB) :
    (GlobalSearchService.search q u f db).2 = db :=
  search_state_fixed q u f db

/-! ### Claim C9: a `None` query behaves like the empty query -/

/-- C9: passing `query = None` is normalized to the empty string, so `search`
returns three empty lists without touching the state, exactly as for `""`. -/
theorem search_none_query_like_empty (u : Nat) (f : Option Filters) (db : DB) :
    GlobalSearchService.search none u f db = (⟨[], [], []⟩, db) ∧
      GlobalSearchService.search none u f db = GlobalSearchService.search (some "") u f db := by
  have hs : pyStrip "" = "" := by decide
  have h1 : GlobalSearchService.search none u f db = (⟨[], [], []⟩, db) := by
    unfold GlobalSearchService.search
    simp [hs]
  have h2 : GlobalSearchService.search (some "") u f db = (⟨[], [], []⟩, db) := by
    unfold GlobalSearchService.search
    simp [hs]
  exact ⟨h1, h1.trans h2.symm⟩

/-! ### Claim C10: search is deterministic -/

/-- C10: two invocations with the same query, user, filters and database state
return the same result bundle; running the second invocation on the state left
behind by the first changes nothing. -/
theorem search_deterministic (q : Option String) (u : Nat) (f : Option Filters) (db : DB) :
    (GlobalSearchService.search q u f ((GlobalSearchService.search q u f db).2)).1 =
      (GlobalSearchService.search q u f db).1 := by
  rw [search_state_fixed]

/-! ### Lemmas about the type post-filter -/

theorem typeFilterApply_pb (fs : Filters) (pbs : List Playbook) (wfs : List Workflow)
    (acts : List Activity) (h : fget fs "type" = some "playbooks") :
    typeFilterApply fs pbs wfs acts = ⟨pbs, [], []⟩ := by
  unfold typeFilterApply
  rw [h]
  simp

theorem typeFilterApply_wf (fs : Filters) (pbs : List Playbook) (wfs : List Workflow)
    (acts : List Activity) (h : fget fs "type" = some "workflows") :
    typeFilterApply fs pbs wfs acts = ⟨[], wfs, []⟩ := by
  unfold typeFilterApply
  rw [h]
  simp

theorem typeFilterApply_act (fs : Filters) (pbs : List Playbook) (wfs : List Workflow)
    (acts : List Activity) (h : fget fs "type" = some "activities") :
    typeFilterApply fs pbs wfs acts = ⟨[], [], acts⟩ := by
  unfold typeFilterApply
  rw [h]
  simp

theorem typeFilterApply_default (fs : Filters) (pbs : List Playbook) (wfs : List Workflow)
    (acts : List Activity) (hp : fget fs "type" ≠ some "playbooks")
    (hw : fget fs "type" ≠ some "workflows") (ha : fget fs "type" ≠ some "activities") :
    typeFilterApply fs pbs wfs acts = ⟨pbs, wfs, acts⟩ := by
  unfold typeFilterApply
  cases h : fget fs "type" with
  | none => rfl
  | some t =>
    have h1 : t ≠ "playbooks" := fun e => hp (h.trans (congrArg some e))
    have h2 : t ≠ "workflows" := fun e => hw (h.trans (congrArg some e))
    have h3 : t ≠ "activities" := fun e => ha (h.trans (congrArg some e))
    simp [h1, h2, h3]

theorem typeFilterApply_playbooks_eq (fs : Filters) (pbs : List Playbook)
    (wfs : List Workflow) (acts : List Activity)
    (hw : fget fs "type" ≠ some "workflows") (ha : fget fs "type" ≠ some "activities") :
    (typeFilterApply fs pbs wfs acts).playbooks = pbs := by
  unfold typeFilterApply
  cases h : fget fs "type" with
  | none => rfl
  | some t =>
    have h2 : t ≠ "workflows" := fun e => hw (h.trans (congrArg some e))
    have h3 : t ≠ "activities" := fun e => ha (h.trans (congrArg some e))
    by_cases h1 : t = "playbooks"
    · simp [h1]
    · simp [h1, h2, h3]

theorem typeFilterApply_playbooks_cases (fs : Filters) (pbs : List Playbook)
    (wfs : List Workflow) (acts : List Activity) :
    (typeFilterApply fs pbs wfs acts).playbooks = pbs ∨
      (typeFilterApply fs pbs wfs acts).playbooks = [] := by
  unfold typeFilterApply
  cases fget fs "type" with
  | none => exact Or.inl rfl
  | some t =>
    by_cases h1 : (t == "playbooks") = true <;> by_cases h2 : (t == "workflows") = true <;>
      by_cases h3 : (t == "activities") = true <;> simp [h1, h2, h3]

theorem typeFilterApply_workflows_cases (fs : Filters) (pbs : List Playbook)
    (wfs : List Workflow) (acts : List Activity) :
    (typeFilterApply fs pbs wfs acts).workflows = wfs ∨
      (typeFilterApply fs pbs wfs acts).workflows = [] := by
  unfold typeFilterApply
  cases fget fs "type" with
  | none => exact Or.inl rfl
  | some t =>
    by_cases h1 : (t == "playbooks") = true <;> by_cases h2 : (t == "workflows") = true <;>
      by_cases h3 : (t == "activities") = true <;> simp [h1, h2, h3]

theorem typeFilterApply_activities_cases (fs : Filters) (pbs : List Playbook)
    (wfs : List Workflow) (acts : List Activity) :
    (typeFilterApply fs pbs wfs acts).activities = acts ∨
      (typeFilterApply fs pbs wfs acts).activities = [] := by
  unfold typeFilterApply
  cases fget fs "type" with
  | none => exact Or.inl rfl
  | some t =>
    by_cases h1 : (t == "playbooks") = true <;> by_cases h2 : (t == "workflows") = true <;>
      by_cases h3 : (t == "activities") = true <;> simp [h1, h2, h3]

/-! ### Lemmas about the row predicates -/

theorem pbPred_author {q : String} {u : Nat} {fs : Filters} {p : Playbook}
    (h : pbPred q u fs p = true) : p.author = u := by
  simp only [pbPred, Bool.and_eq_true, beq_iff_eq] at h
  exact h.1.1.1

theorem wfOwnedBy_iff {pbs : List Playbook} {u : Nat} {w : Workflow} :
    wfOwnedBy pbs u w = true ↔ ∃ p ∈ pbs, p.id = w.playbookId ∧ p.author = u := by
  simp [wfOwnedBy, List.any_eq_true, Bool.and_eq_true, beq_iff_eq]

theorem actOwnedBy_iff {pbs : List Playbook} {wfs : List Workflow} {u : Nat} {a : Activity} :
    actOwnedBy pbs wfs u a = true ↔
      ∃ w ∈ wfs, w.id = a.workflowId ∧ ∃ p ∈ pbs, p.id = w.playbookId ∧ p.author = u := by
  simp [actOwnedBy, List.any_eq_true, Bool.and_eq_true, beq_iff_eq, wfOwnedBy_iff]

/-! ### Claim C1: every returned entity is owned by the acting user -/

/-- C1: for every non-empty query, every filters value and every database,
each returned playbook has `author = u`, each returned workflow belongs to a
playbook whose author is `u`, and each returned activity belongs to a workflow
whose playbook's author is `u`; no other user's entity ever appears. -/
theorem search_ownership (db : DB) (q : String) (u : Nat) (f : Option Filters)
    (hq : pyStrip q ≠ "") : OwnedOnly db u (searchRes (some q) u f db) := by
  rw [search_pos q u f db hq]
  refine ⟨?_, ?_, ?_⟩
  · intro p hp
    rcases typeFilterApply_playbooks_cases (f.getD [])
        (playbooksLookup (pyStrip q) u (f.getD []) db)
        (workflowsLookup (pyStrip q) u db) (activitiesLookup (pyStrip q) u db) with hc | hc
    · rw [hc] at hp
      exact pbPred_author (mem_playbooksLookup.mp hp).2
    · rw [hc] at hp
      cases hp
  · intro w hw
    rcases typeFilterApply_workflows_cases (f.getD [])
        (playbooksLookup (pyStrip q) u (f.getD []) db)
        (workflowsLookup (pyStrip q) u db) (activitiesLookup (pyStrip q) u db) with hc | hc
    · rw [hc] at hw
      have h2 := (mem_workflowsLookup.mp hw).2
      simp only [Bool.and_eq_true] at h2
      exact wfOwnedBy_iff.mp h2.1
    · rw [hc] at hw
      cases hw
  · intro a ha
    rcases typeFilterApply_activities_cases (f.getD [])
        (playbooksLookup (pyStrip q) u (f.getD []) db)
        (workflowsLookup (pyStrip q) u db) (activitiesLookup (pyStrip q) u db) with hc | hc
    · rw [hc] at ha
      have h2 := (mem_activitiesLookup.mp ha).2
      simp only [Bool.and_eq_true] at h2
      exact actOwnedBy_iff.mp h2.1
    · rw [hc] at ha
      cases ha

theorem search_ownership_witness :
    pyStrip "Component" ≠ "" ∧
      OwnedOnly dbFull 1 (searchRes (some "Component") 1 none dbFull) :=
  ⟨by decide, search_ownership dbFull "Component" 1 none (by decide)⟩

/-! ### Claim C3: the type filter is a post-filter on materialized lists -/

/-- C3: for every non-empty query, `search` materializes the three lookups and
then applies the type filter as a post-filter: `type = "playbooks"` empties the
workflow and activity lists and leaves the playbook list unchanged,
symmetrically for the other two values, and any other type value (or none)
keeps all three lists as looked up. -/
theorem search_type_post_filter (db : DB) (q : String) (u : Nat) (fs : Filters)
    (hq : pyStrip q ≠ "") : TypePostFilterSpec db q u fs := by
  unfold TypePostFilterSpec
  rw [search_pos q u (some fs) db hq]
  simp only [Option.getD_some]
  exact ⟨fun h => typeFilterApply_pb _ _ _ _ h,
    fun h => typeFilterApply_wf _ _ _ _ h,
    fun h => typeFilterApply_act _ _ _ _ h,
    fun h1 h2 h3 => typeFilterApply_default _ _ _ _ h1 h2 h3⟩

theorem search_type_post_filter_witness :
    pyStrip "Component" ≠ "" ∧
      TypePostFilterSpec dbFull "Component" 1 [("type", "playbooks")] :=
  ⟨by decide, search_type_post_filter dbFull "Component" 1 [("type", "playbooks")] (by decide)⟩

/-! ### Claim C4: exact characterization of the playbooks list -/

theorem pbPred_iff {q : String} {u : Nat} {fs : Filters} {p : Playbook} :
    pbPred q u fs p = true ↔
      p.author = u ∧
        (∀ s, activeFilter fs "status" = some s → p.status = s) ∧
        (∀ s, activeFilter fs "source" = some s → p.source = s) ∧
        (icontains p.name q = true ∨ icontains p.description q = true) := by
  unfold pbPred
  cases hs : activeFilter fs "status" <;> cases hr : activeFilter fs "source" <;>
    simp [hs, hr, Bool.and_eq_true, Bool.or_eq_true, beq_iff_eq, and_assoc]

/-- C4: for every non-empty query, whenever the type filter does not discard
the playbooks list, that list contains exactly the playbooks owned by the
acting user whose name or description contains the query case-insensitively
and which pass the exact-match status and source filters when present, ordered
by most-recently-updated descending. -/
theorem search_playbooks_exact (db : DB) (q : String) (u : Nat) (fs : Filters)
    (hq : pyStrip q ≠ "") (hw : fget fs "type" ≠ some "workflows")
    (ha : fget fs "type" ≠ some "activities") :
    PlaybooksExactSpec db (pyStrip q) u fs (searchRes (some q) u (some fs) db).playbooks := by
  unfold PlaybooksExactSpec
  rw [search_pos q u (some fs) db hq]
  simp only [Option.getD_some]
  rw [typeFilterApply_playbooks_eq _ _ _ _ hw ha]
  constructor
  · intro p
    rw [mem_playbooksLookup, pbPred_iff]
  · exact pairwise_playbooksLookup _ _ _ _

theorem search_playbooks_exact_witness :
    (pyStrip "Component" ≠ "" ∧
        fget [("status", "active")] "type" ≠ some "workflows" ∧
        fget [("status", "active")] "type" ≠ some "activities") ∧
      PlaybooksExactSpec dbFull "Component" 1 [("status", "active")]
        (searchRes (some "Component") 1 (some [("status", "active")]) dbFull).playbooks :=
  ⟨by decide,
    search_playbooks_exact dbFull "Component" 1 [("status", "active")]
      (by decide) (by decide) (by decide)⟩

/-! ### Claim C5: exact characterization of the workflow and activity lists -/

/-- C5: for every non-empty query with no type filter present, the workflows
list contains exactly the acting user's workflows matching the query on name
or description, ordered by parent playbook identity then `order` ascending,
and the activities list contains exactly the acting user's activities matching
the query on name or guidance, ordered by parent workflow identity then
`order` ascending. -/
theorem search_workflows_activities_exact (db : DB) (q : String) (u : Nat)
    (f : Option Filters) (hq : pyStrip q ≠ "") (ht : fget (f.getD []) "type" = none) :
    WorkflowsExactSpec db (pyStrip q) u (searchRes (some q) u f db).workflows ∧
      ActivitiesExactSpec db (pyStrip q) u (searchRes (some q) u f db).activities := by
  rw [search_pos q u f db hq]
  rw [typeFilterApply_default _ _ _ _ (by simp [ht]) (by simp [ht]) (by simp [ht])]
  constructor
  · constructor
    · intro w
      rw [mem_workflowsLookup]
      simp only [Bool.and_eq_true, Bool.or_eq_true, wfOwnedBy_iff, and_assoc]
    · exact pairwise_workflowsLookup _ _ _
  · constructor
    · intro a
      rw [mem_activitiesLookup]
      simp only [Bool.and_eq_true, Bool.or_eq_true, actOwnedBy_iff, and_assoc]
    · exact pairwise_activitiesLookup _ _ _

theorem search_workflows_activities_exact_witness :
    (pyStrip "Component" ≠ "" ∧ fget ((none : Option Filters).getD []) "type" = none) ∧
      (WorkflowsExactSpec dbFull "Component" 1
          (searchRes (some "Component") 1 none dbFull).workflows ∧
        ActivitiesExactSpec dbFull "Component" 1
          (searchRes (some "Component") 1 none dbFull).activities) :=
  ⟨⟨by decide, rfl⟩,
    search_workflows_activities_exact dbFull "Component" 1 none (by decide) rfl⟩

/-! ### Claim C7: the suggestions handler truncates each list to 5 -/

/-- C7: for every non-empty query, the suggestions handler calls the same
`search` as the full-results handler (with `filters = None`) and then
truncates each of the three returned sequences to its first 5 entries,
preserving their order; the service itself does not truncate. -/
theorem suggestions_truncate (q : Option String) (u : Nat) (db : DB)
    (hq : pyStrip (q.getD "") ≠ "") :
    (globalSearchSuggestions q u db).1.playbooks =
        (searchRes (some (pyStrip (q.getD ""))) u none db).playbooks.take 5 ∧
      (globalSearchSuggestions q u db).1.workflows =
        (searchRes (some (pyStrip (q.getD ""))) u none db).workflows.take 5 ∧
      (globalSearchSuggestions q u db).1.activities =
        (searchRes (some (pyStrip (q.getD ""))) u none db).activities.take 5 := by
  have hb : (pyStrip (q.getD "") == "") = false := by simpa using hq
  unfold globalSearchSuggestions searchRes
  simp [hb]

theorem suggestions_truncate_witness :
    pyStrip ((some "a").getD "") ≠ "" ∧
      ((globalSearchSuggestions (some "a") 1 db8).1.playbooks =
          (searchRes (some (pyStrip ((some "a").getD ""))) 1 none db8).playbooks.take 5 ∧
        (globalSearchSuggestions (some "a") 1 db8).1.workflows =
          (searchRes (some (pyStrip ((some "a").getD ""))) 1 none db8).workflows.take 5 ∧
        (globalSearchSuggestions (some "a") 1 db8).1.activities =
          (searchRes (some (pyStrip ((some "a").getD ""))) 1 none db8).activities.take 5) ∧
      (searchRes (some "a") 1 none db8).playbooks.length = 8 ∧
      (globalSearchSuggestions (some "a") 1 db8).1.playbooks.length = 5 :=
  ⟨by decide, suggestions_truncate (some "a") 1 db8 (by decide), by decide, by decide⟩

/-! ### Claim C6: behavior of the filters argument -/

theorem fget_cons_self (k v : String) (fs : Filters) : fget ((k, v) :: fs) k = some v := by
  simp [fget]

theorem fget_cons_ne (k v : String) (fs : Filters) (k2 : String) (h : k ≠ k2) :
    fget ((k, v) :: fs) k2 = fget fs k2 := by
  simp [fget, h]

theorem fget_withoutKey_self (fs : Filters) (k : String) :
    fget (withoutKey fs k) k = none := by
  induction fs with
  | nil => rfl
  | cons kv tl ih =>
    by_cases h : (kv.1 == k) = true
    · simpa [withoutKey, List.filter_cons, h] using ih
    · have hf : (kv.1 == k) = false := by simpa using h
      simpa [withoutKey, List.filter_cons, hf, fget] using ih

theorem fget_withoutKey_ne (fs : Filters) (k k2 : String) (h : k2 ≠ k) :
    fget (withoutKey fs k) k2 = fget fs k2 := by
  induction fs with
  | nil => rfl
  | cons kv tl ih =>
    by_cases hk : (kv.1 == k) = true
    · have e : kv.1 = k := by simpa using hk
      have hne : (kv.1 == k2) = false := by
        simp [e]
        exact Ne.symm h
      simpa [withoutKey, List.filter_cons, hk, fget, hne] using ih
    · have hf : (kv.1 == k) = false := by simpa using hk
      by_cases hq : (kv.1 == k2) = true
      · simp [withoutKey, List.filter_cons, hf, fget, hq]
      · have hq2 : (kv.1 == k2) = false := by simpa using hq
        simpa [withoutKey, List.filter_cons, hf, fget, hq2] using ih

theorem typeFilterApply_eq_effect (fs : Filters) (pbs : List Playbook)
    (wfs : List Workflow) (acts : List Activity) :
    typeFilterApply fs pbs wfs acts =
      (match typeEffect fs with
       | some t =>
         if t == "playbooks" then ⟨pbs, [], []⟩
         else if t == "workflows" then ⟨[], wfs, []⟩
         else if t == "activities" then ⟨[], [], acts⟩
         else ⟨pbs, wfs, acts⟩
       | none => ⟨pbs, wfs, acts⟩) := by
  unfold typeFilterApply typeEffect
  cases h : fget fs "type" with
  | none => rfl
  | some t =>
    by_cases h1 : (t == "playbooks") = true <;> by_cases h2 : (t == "workflows") = true <;>
      by_cases h3 : (t == "activities") = true <;> simp [h1, h2, h3]

theorem typeFilterApply_congr (fs gs : Filters) (pbs : List Playbook)
    (wfs : List Workflow) (acts : List Activity) (h : typeEffect fs = typeEffect gs) :
    typeFilterApply fs pbs wfs acts = typeFilterApply gs pbs wfs acts := by
  rw [typeFilterApply_eq_effect, typeFilterApply_eq_effect, h]

theorem pbPred_congr (q : String) (u : Nat) {fs gs : Filters}
    (hst : activeFilter fs "status" = activeFilter gs "status")
    (hsrc : activeFilter fs "source" = activeFilter gs "source") :
    pbPred q u fs = pbPred q u gs := by
  funext p
  unfold pbPred
  rw [hst, hsrc]

theorem playbooksLookup_congr (q : String) (u : Nat) (db : DB) {fs gs : Filters}
    (hst : activeFilter fs "status" = activeFilter gs "status")
    (hsrc : activeFilter fs "source" = activeFilter gs "source") :
    playbooksLookup q u fs db = playbooksLookup q u gs db := by
  unfold playbooksLookup searchPlaybooksQ
  rw [pbPred_congr q u hst hsrc]

/-- `search` reads its filters only through the `status`, `source` and (effective)
`type` entries. -/
theorem searchRes_filters_congr (q : Option String) (u : Nat) (db : DB) {fs gs : Filters}
    (hst : activeFilter fs "status" = activeFilter gs "status")
    (hsrc : activeFilter fs "source" = activeFilter gs "source")
    (hty : typeEffect fs = typeEffect gs) :
    searchRes q u (some fs) db = searchRes q u (some gs) db := by
  by_cases hq : pyStrip (q.getD "") = ""
  · unfold searchRes
    rw [search_empty_aux q u (some fs) db hq, search_empty_aux q u (some gs) db hq]
  · cases q with
    | none => exact absurd (by decide : pyStrip ((none : Option String).getD "") = "") hq
    | some s =>
      have hs : pyStrip s ≠ "" := by simpa using hq
      rw [search_pos s u (some fs) db hs, search_pos s u (some gs) db hs]
      simp only [Option.getD_some]
      rw [playbooksLookup_congr (pyStrip s) u db hst hsrc]
      exact typeFilterApply_congr _ _ _ _ _ hty

/-- C6 counterexample: an unknown (nonempty) `status` value is NOT ignored —
it is applied as an exact-match filter, so the result differs from the one
with the filter absent. -/
theorem search_unknown_status_changes_result :
    searchRes (some "al") 1 (some [("status", "bogus")]) dbDemo ≠
      searchRes (some "al") 1 (some []) dbDemo := by
  decide

/-- C6 (amended): `search` never raises on account of its filters argument;
an absent or empty value for `status`/`source`/`type` applies no restriction;
filter keys outside {status, source, type} are ignored; a `type` value outside
the known set behaves as if the type filter were absent.  (A nonempty unknown
`status`/`source` value, by contrast, is applied as an exact-match filter.) -/
theorem search_filters_tolerant :
    (∀ (q : Option String) (u : Nat) (db : DB) (fs : Filters) (k v : String),
        k ≠ "status" → k ≠ "source" → k ≠ "type" →
        searchRes q u (some ((k, v) :: fs)) db = searchRes q u (some fs) db) ∧
    (∀ (q : Option String) (u : Nat) (db : DB) (fs : Filters) (k : String),
        k = "status" ∨ k = "source" ∨ k = "type" →
        searchRes q u (some ((k, "") :: fs)) db =
          searchRes q u (some (withoutKey fs k)) db) ∧
    (∀ (q : Option String) (u : Nat) (db : DB) (fs : Filters) (t : String),
        fget fs "type" = some t → t ≠ "playbooks" → t ≠ "workflows" → t ≠ "activities" →
        searchRes q u (some fs) db = searchRes q u (some (withoutKey fs "type")) db) ∧
    (∀ (q : Option String) (u : Nat) (db : DB),
        searchRes q u (some []) db = searchRes q u none db) := by
  refine ⟨?_, ?_, ?_, ?_⟩
  · intro q u db fs k v h1 h2 h3
    apply searchRes_filters_congr
    · unfold activeFilter
      rw [fget_cons_ne k v fs "status" h1]
    · unfold activeFilter
      rw [fget_cons_ne k v fs "source" h2]
    · unfold typeEffect
      rw [fget_cons_ne k v fs "type" h3]
  · intro q u db fs k hk
    rcases hk with rfl | rfl | rfl
    · apply searchRes_filters_congr
      · unfold activeFilter
        rw [fget_cons_self, fget_withoutKey_self]
        simp
      · unfold activeFilter
        rw [fget_cons_ne _ _ _ _ (by decide), fget_withoutKey_ne _ _ _ (by decide)]
      · unfold typeEffect
        rw [fget_cons_ne _ _ _ _ (by decide), fget_withoutKey_ne _ _ _ (by decide)]
    · apply searchRes_filters_congr
      · unfold activeFilter
        rw [fget_cons_ne _ _ _ _ (by decide), fget_withoutKey_ne _ _ _ (by decide)]
      · unfold activeFilter
        rw [fget_cons_self, fget_withoutKey_self]
        simp
      · unfold typeEffect
        rw [fget_cons_ne _ _ _ _ (by decide), fget_withoutKey_ne _ _ _ (by decide)]
    · apply searchRes_filters_congr
      · unfold activeFilter
        rw [fget_cons_ne _ _ _ _ (by decide), fget_withoutKey_ne _ _ _ (by decide)]
      · unfold activeFilter
        rw [fget_cons_ne _ _ _ _ (by decide), fget_withoutKey_ne _ _ _ (by decide)]
      · unfold typeEffect
        rw [fget_cons_self, fget_withoutKey_self]
        simp
  · intro q u db fs t ht h1 h2 h3
    apply searchRes_filters_congr
    · unfold activeFilter
      rw [fget_withoutKey_ne _ _ _ (by decide)]
    · unfold activeFilter
      rw [fget_withoutKey_ne _ _ _ (by decide)]
    · unfold typeEffect
      rw [ht, fget_withoutKey_self]
      simp [h1, h2, h3]
  · intro q u db
    rfl

theorem search_filters_tolerant_witness :
    ("limit" ≠ "status" ∧ "limit" ≠ "source" ∧ "limit" ≠ "type") ∧
      searchRes (some "al") 1 (some [("limit", "5")]) dbDemo =
        searchRes (some "al") 1 (some []) dbDemo :=
  ⟨by decide,
    search_filters_tolerant.1 (some "al") 1 dbDemo [] "limit" "5"
      (by decide) (by decide) (by decide)⟩
